import Mathlib

/-!
Verification model of the spring parameter & pricing calculation engine of
`src/SpringCalculator.jsx` (the most complete calculator variant; `App.jsx`
holds an earlier subset of the same formulas).

Modelling conventions:
* JavaScript numbers are embedded as exact rationals (`ℚ`); `Math.PI` becomes
  an explicit parameter `pi : ℚ` so that statements hold symbolically in π.
* Where a division can produce `Infinity`/`NaN` on inputs the validator does
  not reject (`pitch` with `coilsTotal = 1`, `stressRatio` with a material
  lacking a `UTS` entry, `pricePerSpring` with `marginRatio = 0`, and
  `overallSellingPrice` with `quantity = 0`, into which a non-finite
  `pricePerSpring` also propagates), the value is embedded in `JSNum`, a
  four-point model of an IEEE double holding an exact finite rational,
  `Infinity`, `-Infinity` or `NaN`, with JavaScript's `+`, `*` and `/`.  The
  zero divisors reached here are positive zeros, so `JSNum` needs no signed
  zero.
* Fields of the result record that no verified property touches and whose
  value needs `Real.sqrt` (`naturalFrequency`, `resonantFrequency`) or string
  containment (`relaxationEstimate`), as well as the purely descriptive
  pass-through inputs (tolerances, finish, ends, notes), are not modelled.
-/

namespace SpringCalc

/-- The three interpretations of the raw `diameter` input
(`diameterType` of `'outer' | 'inner'`, anything else meaning mean). -/
inductive DiameterType where
  | outer
  | inner
  | mean
deriving DecidableEq

/-- One entry of the `MATERIALS` table of `SpringCalculator.jsx`.  Only the
first four IS 4454 entries carry `E`, `UTS` and `yieldStrength`. -/
structure MaterialProps where
  density : ℚ
  G : ℚ
  E : Option ℚ := none
  UTS : Option ℚ := none
  yieldStrength : Option ℚ := none
  cost : ℚ
deriving DecidableEq

/-- The built-in `MATERIALS` table (name-keyed, as in the source). -/
def MATERIALS : String → Option MaterialProps
  | "IS 4454 Part 1 - Cold drawn unalloyed steel" =>
      some { density := 7.85, G := 80000, E := some 207000,
             UTS := some 1750, yieldStrength := some 1400, cost := 320 }
  | "IS 4454 Part 2 - Oil hardened and tempered" =>
      some { density := 7.85, G := 80000, E := some 207000,
             UTS := some 2000, yieldStrength := some 1600, cost := 350 }
  | "IS 4454 Part 3 - Stainless steel" =>
      some { density := 7.95, G := 70000, E := some 193000,
             UTS := some 1700, yieldStrength := some 1360, cost := 550 }
  | "IS 4454 Part 4 - Patented and cold drawn" =>
      some { density := 7.85, G := 80000, E := some 207000,
             UTS := some 1850, yieldStrength := some 1480, cost := 380 }
  | "Music Wire (High Carbon Steel, ASTM A228)" =>
      some { density := 7.86, G := 80500, cost := 350 }
  | "Oil Tempered Wire (ASTM A229 / A230)" =>
      some { density := 7.85, G := 78500, cost := 380 }
  | "Stainless Steel 302/304 (ASTM A313)" =>
      some { density := 7.90, G := 71500, cost := 550 }
  | "Stainless Steel 316" =>
      some { density := 7.99, G := 68500, cost := 650 }
  | "Phosphor Bronze (ASTM B159)" =>
      some { density := 8.80, G := 44500, cost := 750 }
  | "Beryllium Copper (ASTM B197)" =>
      some { density := 8.25, G := 49500, cost := 950 }
  | "Chrome Silicon (ASTM A401)" =>
      some { density := 7.85, G := 81000, cost := 450 }
  | "Chrome Vanadium (ASTM A231)" =>
      some { density := 7.85, G := 79000, cost := 480 }
  | "Inconel X-750" =>
      some { density := 8.28, G := 74000, cost := 1200 }
  | "Monel 400" =>
      some { density := 8.80, G := 65000, cost := 900 }
  | "Titanium Alloy (Ti-6Al-4V)" =>
      some { density := 4.43, G := 43500, cost := 2500 }
  | "Custom" =>
      some { density := 7.85, G := 79300, cost := 300 }
  | _ => none

/-- The computational fields of the calculator's input record (`inputs`). -/
structure SpringInputs where
  wireD : ℚ
  diameter : ℚ
  diameterType : DiameterType
  coilsTotal : ℚ
  coilsActive : ℚ
  freeLength : ℚ
  loadHeight : ℚ
  material : String
  materialCost : ℚ
  density : ℚ
  G : ℚ
  marginRatio : ℚ
  overrideMargin : Bool
  manualPrice : ℚ
  overrideRate : Bool
  manualRate : ℚ
  setupCost : ℚ
  quantity : ℚ
deriving DecidableEq

/-- The `initialState` record (zeros, Music Wire defaults). -/
def initialState : SpringInputs :=
  { wireD := 0, diameter := 0, diameterType := .outer,
    coilsTotal := 0, coilsActive := 0, freeLength := 0, loadHeight := 0,
    material := "Music Wire (High Carbon Steel, ASTM A228)",
    materialCost := 350, density := 7.86, G := 80500,
    marginRatio := 0.4, overrideMargin := false, manualPrice := 0,
    overrideRate := false, manualRate := 0, setupCost := 0, quantity := 0 }

/-- An IEEE-double value as JavaScript produces it here: an exact finite
rational, `Infinity`, `-Infinity` or `NaN`. -/
inductive JSNum where
  | fin (q : ℚ)
  | inf
  | negInf
  | nan
deriving DecidableEq

/-- IEEE division as JavaScript's `/` behaves on these values (the finite
zero that can occur as a divisor in this program is `+0`). -/
def JSNum.div : JSNum → JSNum → JSNum
  | .nan, _ => .nan
  | _, .nan => .nan
  | .fin a, .fin b =>
      if b = 0 then (if a = 0 then .nan else if 0 < a then .inf else .negInf)
      else .fin (a / b)
  | .fin _, .inf => .fin 0
  | .fin _, .negInf => .fin 0
  | .inf, .fin b => if 0 ≤ b then .inf else .negInf
  | .negInf, .fin b => if 0 ≤ b then .negInf else .inf
  | .inf, .inf => .nan
  | .inf, .negInf => .nan
  | .negInf, .inf => .nan
  | .negInf, .negInf => .nan

/-- IEEE addition as JavaScript's `+` behaves on these values. -/
def JSNum.add : JSNum → JSNum → JSNum
  | .nan, _ => .nan
  | _, .nan => .nan
  | .fin a, .fin b => .fin (a + b)
  | .inf, .fin _ => .inf
  | .negInf, .fin _ => .negInf
  | .fin _, .inf => .inf
  | .fin _, .negInf => .negInf
  | .inf, .inf => .inf
  | .negInf, .negInf => .negInf
  | .inf, .negInf => .nan
  | .negInf, .inf => .nan

/-- IEEE multiplication as JavaScript's `*` behaves on these values. -/
def JSNum.mul : JSNum → JSNum → JSNum
  | .nan, _ => .nan
  | _, .nan => .nan
  | .fin a, .fin b => .fin (a * b)
  | .inf, .fin b => if b = 0 then .nan else if 0 < b then .inf else .negInf
  | .negInf, .fin b => if b = 0 then .nan else if 0 < b then .negInf else .inf
  | .fin a, .inf => if a = 0 then .nan else if 0 < a then .inf else .negInf
  | .fin a, .negInf => if a = 0 then .nan else if 0 < a then .negInf else .inf
  | .inf, .inf => .inf
  | .negInf, .negInf => .inf
  | .inf, .negInf => .negInf
  | .negInf, .inf => .negInf

/-- Whether a `JSNum` is an ordinary finite number. -/
def JSNum.isFinite : JSNum → Bool
  | .fin _ => true
  | _ => false

/-- `calculateMeanDiameter`: interpret the raw diameter per `diameterType`. -/
def calculateMeanDiameter (i : SpringInputs) : ℚ :=
  match i.diameterType with
  | .outer => i.diameter - i.wireD
  | .inner => i.diameter + i.wireD
  | .mean => i.diameter

/-- Whether the `diameterType`-dependent relationship check of
`validateInputs` fails (the branch that overwrites `errors.diameter`). -/
def diameterRelationFail (i : SpringInputs) : Bool :=
  match i.diameterType with
  | .inner => decide (i.diameter ≤ i.wireD * 2)
  | .outer => decide (i.diameter ≤ i.wireD * 3)
  | .mean => decide (i.diameter ≤ i.wireD * 2)

/-- The keys of the `errors` object `validateInputs` can set: `true` means
the field's message is present. -/
structure ValidationErrors where
  wireD : Bool
  diameter : Bool
  coilsTotal : Bool
  coilsActive : Bool
  freeLength : Bool
  loadHeight : Bool
deriving DecidableEq

/-- `validateInputs`: every field's check is evaluated independently
(the source fills one `errors` object with no early return). -/
def validateInputs (i : SpringInputs) : ValidationErrors :=
  { wireD := decide (i.wireD ≤ 0)
    diameter := decide (i.diameter ≤ 0) || diameterRelationFail i
    coilsTotal := decide (i.coilsTotal ≤ 0)
    coilsActive := decide (i.coilsActive ≤ 0) || decide (i.coilsTotal < i.coilsActive)
    freeLength := decide (i.freeLength ≤ 0)
    loadHeight := decide (i.loadHeight ≤ 0) || decide (i.freeLength ≤ i.loadHeight) }

/-- `Object.keys(errors).length === 0`: the validator's boolean verdict. -/
def isValid (i : SpringInputs) : Bool :=
  let e := validateInputs i
  !(e.wireD || e.diameter || e.coilsTotal || e.coilsActive ||
    e.freeLength || e.loadHeight)

/-- The result record `setResults` receives (sqrt-based frequency fields and
the string-keyed relaxation estimate are not modelled). -/
structure SpringResults where
  meanD : ℚ
  od : ℚ
  id : ℚ
  springIndex : ℚ
  wireVolume : ℚ
  springWeight : ℚ
  rawMaterialCost : ℚ
  springRate : ℚ
  loadAtL1 : ℚ
  sellingPrice : JSNum
  pricePerSpring : JSNum
  overallSellingPrice : JSNum
  totalWireWeight : ℚ
  solidLength : ℚ
  pitch : JSNum
  wahlFactor : ℚ
  shearStress : ℚ
  stressAtSolidLength : ℚ
  stressRatio : JSNum
  bucklingRiskRatio : ℚ
  bucklingRisk : Bool
deriving DecidableEq

/-- The `initialResults` record (all zeros / false). -/
def initialResults : SpringResults :=
  { meanD := 0, od := 0, id := 0, springIndex := 0, wireVolume := 0,
    springWeight := 0, rawMaterialCost := 0, springRate := 0, loadAtL1 := 0,
    sellingPrice := .fin 0, pricePerSpring := .fin 0,
    overallSellingPrice := .fin 0,
    totalWireWeight := 0, solidLength := 0, pitch := .fin 0, wahlFactor := 0,
    shearStress := 0, stressAtSolidLength := 0, stressRatio := .fin 0,
    bucklingRiskRatio := 0, bucklingRisk := false }

/-- The computation body of `calculateResults` (everything after the
validation gate), with `Math.PI` as the parameter `pi`. -/
def computeResults (pi : ℚ) (i : SpringInputs) : SpringResults :=
  let meanD := calculateMeanDiameter i
  let od := meanD + i.wireD
  let id := meanD - i.wireD
  let C := meanD / i.wireD
  let solidLength := i.coilsTotal * i.wireD
  let pitch := JSNum.div (.fin (i.freeLength - i.wireD)) (.fin (i.coilsTotal - 1))
  let K := (4 * C - 1) / (4 * C - 4) + 0.615 / C
  let wireLength := pi * meanD * i.coilsTotal
  let wireVolume := pi * (i.wireD / 2) ^ 2 * wireLength
  let springWeight := wireVolume * i.density / 1000
  let rawMaterialCost := springWeight / 1000 * i.materialCost
  let springRate0 := i.G * i.wireD ^ 4 / (8 * meanD ^ 3 * i.coilsActive)
  let springRate := if i.overrideRate then i.manualRate else springRate0
  let deflection := i.freeLength - i.loadHeight
  let loadAtL1 := springRate * deflection
  let shearStress := 8 * loadAtL1 * meanD * K / (pi * i.wireD ^ 3)
  let solidLengthDeflection := i.freeLength - solidLength
  let maxLoad := springRate * solidLengthDeflection
  let stressAtSolidLength := 8 * maxLoad * meanD * K / (pi * i.wireD ^ 3)
  let UTSnum : JSNum :=
    match MATERIALS i.material with
    | some props =>
        match props.UTS with
        | some u => .fin u
        | none => .nan
    | none => .nan
  let stressRatio := JSNum.div (.fin stressAtSolidLength) UTSnum
  let pricePerSpring : JSNum :=
    if i.overrideMargin then .fin i.manualPrice
    else JSNum.div (.fin rawMaterialCost) (.fin i.marginRatio)
  let overallSellingPrice :=
    JSNum.div (JSNum.add (.fin i.setupCost) (JSNum.mul pricePerSpring (.fin i.quantity)))
      (.fin i.quantity)
  let totalWireWeight := springWeight * i.quantity / 1000
  let lengthDiameterRatio := i.freeLength / meanD
  let criticalRatio : ℚ := 2.6
  { meanD := meanD, od := od, id := id, springIndex := C,
    wireVolume := wireVolume, springWeight := springWeight,
    rawMaterialCost := rawMaterialCost, springRate := springRate,
    loadAtL1 := loadAtL1, sellingPrice := pricePerSpring,
    pricePerSpring := pricePerSpring, overallSellingPrice := overallSellingPrice,
    totalWireWeight := totalWireWeight, solidLength := solidLength,
    pitch := pitch, wahlFactor := K, shearStress := shearStress,
    stressAtSolidLength := stressAtSolidLength, stressRatio := stressRatio,
    bucklingRiskRatio := lengthDiameterRatio / criticalRatio,
    bucklingRisk := decide (criticalRatio < lengthDiameterRatio) }

/-- `calculateResults` as the caller sees it: when validation fails it
returns early, leaving the previously stored results untouched. -/
def calculateResults (pi : ℚ) (prev : SpringResults) (i : SpringInputs) :
    SpringResults :=
  if isValid i then computeResults pi i else prev

/-- One point of `quantityAnalysisData` (and `overallSellingPrice` at the
run quantity): the setup cost amortized over a quantity. -/
def amortizedPrice (setupCost pricePerSpring qty : ℚ) : ℚ :=
  (setupCost + pricePerSpring * qty) / qty

/-- A representative valid input: the §8 scenario of the spec (Custom
material so that the engine uses exactly G = 79300, density = 7.85,
cost = 350). -/
def baseInput : SpringInputs :=
  { wireD := 2, diameter := 10, diameterType := .outer,
    coilsTotal := 10, coilsActive := 8, freeLength := 50, loadHeight := 40,
    material := "Custom", materialCost := 350, density := 7.85, G := 79300,
    marginRatio := 0.4, overrideMargin := false, manualPrice := 0,
    overrideRate := false, manualRate := 0, setupCost := 0, quantity := 1000 }

end SpringCalc

namespace SpringCalc

/-- The §8 scenario input with both overrides switched on. -/
def overrideInput : SpringInputs :=
  { baseInput with
      overrideRate := true
      manualRate := 5
      overrideMargin := true
      manualPrice := 7 }

/-- A valid input with a single coil (the pitch singularity). -/
def oneCoilInput : SpringInputs :=
  { baseInput with
      coilsTotal := 1
      coilsActive := 1 }

/-- A valid input still carrying the initial `quantity = 0`. -/
def zeroQtyInput : SpringInputs :=
  { baseInput with quantity := 0 }

/-- A valid input using the default material, which has no `UTS` entry. -/
def musicWireInput : SpringInputs :=
  { baseInput with material := "Music Wire (High Carbon Steel, ASTM A228)" }

/-- Validation scenario input: outer diameter 8 with wire diameter 3. -/
def rejectedOuterInput : SpringInputs :=
  { baseInput with
      wireD := 3
      diameter := 8 }

/-- Validation scenario input: 12 active coils out of 10 total. -/
def rejectedCoilsInput : SpringInputs :=
  { baseInput with coilsActive := 12 }

/-- Unpacking `isValid`: every per-field check holds. -/
lemma isValid_facts (i : SpringInputs) (h : isValid i = true) :
    0 < i.wireD ∧ 0 < i.diameter ∧ diameterRelationFail i = false ∧
    0 < i.coilsTotal ∧ 0 < i.coilsActive ∧ i.coilsActive ≤ i.coilsTotal ∧
    0 < i.freeLength ∧ 0 < i.loadHeight ∧ i.loadHeight < i.freeLength := by
  simp only [isValid, validateInputs, Bool.not_or, Bool.and_eq_true,
    Bool.not_eq_eq_eq_not, Bool.not_true, decide_eq_false_iff_not, not_le,
    not_lt, Bool.or_eq_false_iff] at h
  obtain ⟨⟨⟨⟨⟨h1, h2, h3⟩, h4⟩, h5, h6⟩, h7⟩, h8, h9⟩ := h
  exact ⟨h1, h2, h3, h4, h5, h6, h7, h8, h9⟩

/-- Claim C1: on the scenario input (wire 2 mm, outer diameter 10 mm, 10/8
coils, free length 50, load height 40, G = 79300, density 7.85, cost 350/kg,
margin ratio 0.4, no overrides) the engine returns a mean diameter of 8, a
spring index of 4, a spring rate of 79300·2⁴/(8·8³·8) = 1268800/32768, a load
at load height of springRate·10, a raw material cost derived from wire length
π·8·10, volume π·(2/2)²·length, weight volume·7.85/1000 and cost
(weight/1000)·350, and a unit price of rawMaterialCost/0.4. -/
theorem spring_scenario_values (pi : ℚ) :
    (computeResults pi baseInput).meanD = 8 ∧
    (computeResults pi baseInput).springIndex = 4 ∧
    (computeResults pi baseInput).springRate = 1268800 / 32768 ∧
    (computeResults pi baseInput).loadAtL1 =
      (computeResults pi baseInput).springRate * 10 ∧
    (computeResults pi baseInput).rawMaterialCost =
      pi * (2 / 2) ^ 2 * (pi * 8 * 10) * 7.85 / 1000 / 1000 * 350 ∧
    (computeResults pi baseInput).pricePerSpring =
      JSNum.fin ((computeResults pi baseInput).rawMaterialCost / 0.4) := by
  refine ⟨?_, ?_, ?_, ?_, ?_, ?_⟩
  · norm_num [computeResults, calculateMeanDiameter, baseInput]
  · norm_num [computeResults, calculateMeanDiameter, baseInput]
  · norm_num [computeResults, calculateMeanDiameter, baseInput]
  · norm_num [computeResults, calculateMeanDiameter, baseInput]
  · norm_num [computeResults, calculateMeanDiameter, baseInput]
  · have hraw : (computeResults pi baseInput).pricePerSpring =
        JSNum.div (.fin (computeResults pi baseInput).rawMaterialCost)
          (.fin (0.4 : ℚ)) := by
      simp [computeResults, baseInput]
    rw [hraw]
    norm_num [JSNum.div]

/-- Claim C2: the engine derives the mean diameter from the raw diameter per
`diameterType` (outer: diameter − wire, inner: diameter + wire, mean:
unchanged), sets the outer and inner diameters to meanD ± wireD, and hence
outerDiameter − innerDiameter = 2·wireDiameter on every input. -/
theorem diameter_relations (pi : ℚ) (i : SpringInputs) :
    (computeResults pi i).meanD =
      (match i.diameterType with
       | .outer => i.diameter - i.wireD
       | .inner => i.diameter + i.wireD
       | .mean => i.diameter) ∧
    (computeResults pi i).od = (computeResults pi i).meanD + i.wireD ∧
    (computeResults pi i).id = (computeResults pi i).meanD - i.wireD ∧
    (computeResults pi i).od - (computeResults pi i).id = 2 * i.wireD := by
  refine ⟨?_, ?_, ?_, ?_⟩
  · cases hdt : i.diameterType <;>
      simp [computeResults, calculateMeanDiameter, hdt]
  · simp [computeResults]
  · simp [computeResults]
  · simp [computeResults]
    ring

/-- Claim C3: on every validated input, enabling the rate override makes the
returned spring rate exactly the manual rate, and enabling the price override
makes the returned unit price exactly the manual price — each override
replaces the computed value outright. -/
theorem override_semantics (pi : ℚ) (i : SpringInputs)
    (h : isValid i = true) :
    (i.overrideRate = true → (computeResults pi i).springRate = i.manualRate) ∧
    (i.overrideMargin = true →
      (computeResults pi i).pricePerSpring = JSNum.fin i.manualPrice) := by
  constructor <;> intro ho <;> simp [computeResults, ho]

/-- Witness for C3: with both overrides on, the scenario input returns the
manual rate 5 and the manual price 7. -/
theorem override_semantics_witness :
    (computeResults 3 overrideInput).springRate = 5 ∧
    (computeResults 3 overrideInput).pricePerSpring = JSNum.fin 7 := by
  have h := override_semantics 3 overrideInput
    (by norm_num [isValid, validateInputs, diameterRelationFail,
      overrideInput, baseInput])
  exact ⟨h.1 rfl, h.2 rfl⟩

/-- Claim C4: each validator field errors exactly when its own condition
fails, independently of the others; the diameter check depends on
`diameterType` (inner/mean: diameter ≤ 2·wire, outer: diameter ≤ 3·wire);
the outer input (wire 3, diameter 8) is rejected on the diameter field alone,
and 12 active of 10 total coils is rejected on the activeCoils field alone. -/
theorem validation_per_field :
    (∀ i : SpringInputs,
      ((validateInputs i).wireD = true ↔ i.wireD ≤ 0) ∧
      ((validateInputs i).diameter = true ↔
        (i.diameter ≤ 0 ∨
          match i.diameterType with
          | .inner => i.diameter ≤ 2 * i.wireD
          | .outer => i.diameter ≤ 3 * i.wireD
          | .mean => i.diameter ≤ 2 * i.wireD)) ∧
      ((validateInputs i).coilsTotal = true ↔ i.coilsTotal ≤ 0) ∧
      ((validateInputs i).coilsActive = true ↔
        (i.coilsActive ≤ 0 ∨ i.coilsTotal < i.coilsActive)) ∧
      ((validateInputs i).freeLength = true ↔ i.freeLength ≤ 0) ∧
      ((validateInputs i).loadHeight = true ↔
        (i.loadHeight ≤ 0 ∨ i.freeLength ≤ i.loadHeight))) ∧
    validateInputs rejectedOuterInput =
      { wireD := false, diameter := true, coilsTotal := false,
        coilsActive := false, freeLength := false, loadHeight := false } ∧
    validateInputs rejectedCoilsInput =
      { wireD := false, diameter := false, coilsTotal := false,
        coilsActive := true, freeLength := false, loadHeight := false } := by
  refine ⟨fun i => ⟨?_, ?_, ?_, ?_, ?_, ?_⟩, ?_, ?_⟩
  · simp [validateInputs]
  · cases hdt : i.diameterType <;>
      simp [validateInputs, diameterRelationFail, hdt, mul_comm]
  · simp [validateInputs]
  · simp [validateInputs]
  · simp [validateInputs]
  · simp [validateInputs]
  · norm_num [validateInputs, diameterRelationFail, rejectedOuterInput,
      baseInput]
  · norm_num [validateInputs, diameterRelationFail, rejectedCoilsInput,
      baseInput]

/-- Claim C5: when validation reports any error, `calculateResults` returns
early, leaving the previously stored results entirely unchanged. -/
theorem invalid_input_skips_compute (pi : ℚ) (prev : SpringResults)
    (i : SpringInputs) (h : isValid i = false) :
    calculateResults pi prev i = prev := by
  simp [calculateResults, h]

/-- Witness for C5: on the all-zero initial state (invalid), the stored
initial results survive untouched. -/
theorem invalid_input_skips_compute_witness :
    calculateResults 3 initialResults initialState = initialResults :=
  invalid_input_skips_compute 3 initialResults initialState
    (by norm_num [isValid, validateInputs, diameterRelationFail, initialState])

/-- Claim C6: for a fixed unit price ≥ 0 and setup cost > 0 the amortized
price (setup + price·qty)/qty strictly decreases in the quantity over
positive quantities, always stays strictly above the unit price, and
converges to it as the quantity grows. -/
theorem amortized_price_behavior (setupCost pricePerSpring : ℚ)
    (hp : 0 ≤ pricePerSpring) (hs : 0 < setupCost) :
    (∀ q1 q2, 0 < q1 → q1 < q2 →
      amortizedPrice setupCost pricePerSpring q2 <
        amortizedPrice setupCost pricePerSpring q1) ∧
    (∀ q, 0 < q →
      pricePerSpring < amortizedPrice setupCost pricePerSpring q) ∧
    (∀ ε, 0 < ε → ∃ q0, 0 < q0 ∧ ∀ q, q0 ≤ q →
      amortizedPrice setupCost pricePerSpring q < pricePerSpring + ε) := by
  have key : ∀ q : ℚ, 0 < q →
      amortizedPrice setupCost pricePerSpring q =
        setupCost / q + pricePerSpring := by
    intro q hq
    field_simp [amortizedPrice]
  refine ⟨?_, ?_, ?_⟩
  · intro q1 q2 hq1 h12
    rw [key q1 hq1, key q2 (hq1.trans h12)]
    have : setupCost / q2 < setupCost / q1 :=
      div_lt_div_of_pos_left hs hq1 h12
    linarith
  · intro q hq
    rw [key q hq]
    have : 0 < setupCost / q := div_pos hs hq
    linarith
  · intro ε hε
    refine ⟨setupCost / ε + 1, by positivity, fun q hq => ?_⟩
    have hq0 : (0:ℚ) < setupCost / ε + 1 := by positivity
    have hqpos : 0 < q := lt_of_lt_of_le hq0 hq
    have h1 : setupCost / ε < q := by linarith
    have h2 : setupCost < q * ε := (div_lt_iff₀ hε).mp h1
    rw [key q hqpos]
    have h3 : setupCost / q < ε := (div_lt_iff₀ hqpos).mpr (by linarith)
    linarith

/-- Witness for C6: with setup cost 5 and unit price 1, the amortized price
falls from quantity 1 to quantity 2 and stays above 1. -/
theorem amortized_price_behavior_witness :
    amortizedPrice 5 1 2 < amortizedPrice 5 1 1 ∧
    (1:ℚ) < amortizedPrice 5 1 1 := by
  have h := amortized_price_behavior 5 1 (by norm_num) (by norm_num)
  exact ⟨h.1 1 2 (by norm_num) (by norm_num), h.2.1 1 (by norm_num)⟩

/-- Claim C7: every input that passes validation yields a strictly positive
mean diameter, in each of the three `diameterType` branches. -/
theorem valid_meanDiameter_pos (pi : ℚ) (i : SpringInputs)
    (h : isValid i = true) : 0 < (computeResults pi i).meanD := by
  have hm : (computeResults pi i).meanD = calculateMeanDiameter i := by
    simp [computeResults]
  obtain ⟨h1, h2, h3, -, -, -, -, -, -⟩ := isValid_facts i h
  rw [hm]
  cases hdt : i.diameterType <;>
    simp only [diameterRelationFail, hdt, decide_eq_false_iff_not, not_le] at h3 <;>
    simp only [calculateMeanDiameter, hdt] <;>
    linarith

/-- Witness for C7: the scenario input passes validation and its mean
diameter 8 is positive. -/
theorem valid_meanDiameter_pos_witness : 0 < (computeResults 3 baseInput).meanD :=
  valid_meanDiameter_pos 3 baseInput
    (by norm_num [isValid, validateInputs, diameterRelationFail, baseInput])

/-- Claim C8: validation accepts inputs with one total coil (witnessed by a
concrete one), and on every such validated input the pitch
(freeLength − wireD)/(totalCoils − 1) divides by zero and is not a finite
number. -/
theorem totalCoils_one_pitch_not_finite :
    (isValid oneCoilInput = true ∧ oneCoilInput.coilsTotal = 1) ∧
    ∀ (pi : ℚ) (i : SpringInputs), isValid i = true → i.coilsTotal = 1 →
      (computeResults pi i).pitch.isFinite = false := by
  constructor
  · constructor
    · norm_num [isValid, validateInputs, diameterRelationFail, oneCoilInput,
        baseInput]
    · rfl
  · intro pi i hv hc
    have hp : (computeResults pi i).pitch =
        JSNum.div (.fin (i.freeLength - i.wireD)) (.fin (i.coilsTotal - 1)) := by
      simp [computeResults]
    rw [hp, hc]
    norm_num [JSNum.div]
    split_ifs <;> simp [JSNum.isFinite]

/-- Claim C9: the ultimate tensile strength is read from the built-in
`MATERIALS` table (no input field carries it); whenever the selected
material's table entry lacks a `UTS` value — as for the default
music-wire material — the stress ratio divides by an undefined value and is
`NaN`. -/
theorem missing_UTS_gives_nan_stressRatio (pi : ℚ) (i : SpringInputs)
    (props : MaterialProps) (hm : MATERIALS i.material = some props)
    (hu : props.UTS = none) (hv : isValid i = true) :
    (computeResults pi i).stressRatio = JSNum.nan := by
  simp [computeResults, hm, hu, JSNum.div]

/-- Witness for C9: the valid scenario input with the default music-wire
material yields a NaN stress ratio. -/
theorem missing_UTS_gives_nan_stressRatio_witness :
    (computeResults 3 musicWireInput).stressRatio = JSNum.nan :=
  missing_UTS_gives_nan_stressRatio 3 musicWireInput
    { density := 7.86, G := 80500, cost := 350 }
    (by rfl) (by rfl)
    (by norm_num [isValid, validateInputs, diameterRelationFail,
      musicWireInput, baseInput])

/-- A validation-passing input on the degenerate `marginRatio = 0` path,
with `quantity = 0` and a positive setup cost. -/
def marginZeroInput : SpringInputs :=
  { baseInput with
      marginRatio := 0
      quantity := 0
      setupCost := 5 }

/-- Dividing `s + p·0` by `+0` never yields a finite number, and when
`s = 0` it is `NaN` whatever `p` is (finite, infinite or `NaN`). -/
lemma jsdiv_add_mul_zero_zero (p : JSNum) :
    JSNum.div (JSNum.add (.fin 0) (JSNum.mul p (.fin 0))) (.fin 0) =
      JSNum.nan := by
  cases p <;> simp [JSNum.mul, JSNum.add, JSNum.div]

/-- Counterexample to C10 as stated: `marginZeroInput` passes validation,
has `quantity = 0` and `setupCost = 5 > 0`, yet its overall selling price is
`NaN`, not `Infinity` — with `marginRatio = 0` the unit price is itself
`Infinity`, so the numerator is `5 + Infinity·0 = NaN`. -/
theorem quantity_inf_claim_counterexample :
    isValid marginZeroInput = true ∧
    marginZeroInput.quantity = 0 ∧
    0 < marginZeroInput.setupCost ∧
    (computeResults 3 marginZeroInput).overallSellingPrice = JSNum.nan ∧
    (computeResults 3 marginZeroInput).overallSellingPrice ≠ JSNum.inf := by
  have hnan : (computeResults 3 marginZeroInput).overallSellingPrice =
      JSNum.nan := by
    norm_num [computeResults, calculateMeanDiameter, marginZeroInput,
      baseInput, JSNum.div, JSNum.mul, JSNum.add]
  refine ⟨?_, rfl, by norm_num [marginZeroInput, baseInput], hnan, ?_⟩
  · norm_num [isValid, validateInputs, diameterRelationFail, marginZeroInput,
      baseInput]
  · rw [hnan]
    simp

/-- Claim C10 (amended): validation ignores `quantity` and `setupCost`
(changing them never changes the error set); the initial state carries
`quantity = 0`, and a valid input may still carry it; on any input with
`quantity = 0`, the overall selling price (setupCost + price·0)/0 is `NaN`
when the setup cost is zero, and `Infinity` when it is positive provided the
computed price per unit is finite (with `marginRatio = 0` the unit price is
itself `Infinity` and the overall price is `NaN` even for a positive setup
cost). -/
theorem quantity_and_setupCost_unchecked :
    (∀ (i : SpringInputs) (q s : ℚ),
      validateInputs { i with quantity := q, setupCost := s } =
        validateInputs i) ∧
    initialState.quantity = 0 ∧
    (∃ i : SpringInputs, isValid i = true ∧ i.quantity = 0) ∧
    (∀ (pi : ℚ) (i : SpringInputs), i.quantity = 0 → i.setupCost = 0 →
      (computeResults pi i).overallSellingPrice = JSNum.nan) ∧
    (∀ (pi : ℚ) (i : SpringInputs), i.quantity = 0 → 0 < i.setupCost →
      (computeResults pi i).pricePerSpring.isFinite = true →
      (computeResults pi i).overallSellingPrice = JSNum.inf) := by
  refine ⟨fun i q s => rfl, rfl, ⟨zeroQtyInput, ?_, rfl⟩, ?_, ?_⟩
  · norm_num [isValid, validateInputs, diameterRelationFail, zeroQtyInput,
      baseInput]
  · intro pi i hq hs
    have hp : (computeResults pi i).overallSellingPrice =
        JSNum.div
          (JSNum.add (.fin i.setupCost)
            (JSNum.mul (computeResults pi i).pricePerSpring (.fin i.quantity)))
          (.fin i.quantity) := by
      simp [computeResults]
    rw [hp, hq, hs]
    exact jsdiv_add_mul_zero_zero _
  · intro pi i hq hs hfin
    have hp : (computeResults pi i).overallSellingPrice =
        JSNum.div
          (JSNum.add (.fin i.setupCost)
            (JSNum.mul (computeResults pi i).pricePerSpring (.fin i.quantity)))
          (.fin i.quantity) := by
      simp [computeResults]
    rcases hpp : (computeResults pi i).pricePerSpring with x | _ | _ | _ <;>
      rw [hpp] at hfin <;> simp [JSNum.isFinite] at hfin
    rw [hp, hpp, hq]
    have hne : i.setupCost ≠ 0 := ne_of_gt hs
    simp [JSNum.mul, JSNum.add, JSNum.div, hne, hs]

end SpringCalc
